import Mathlib

/-
  Verification development for dnssec.c (ldns, NLnet Labs 2004).

  The file shallowly embeds the four functions of src/dnssec.c:
  verify_rrsig_dsa, verify_rrsig_rsasha1, verify_rrsig_rsamd5 and
  verify_rrsig.  Raw C memory (unsigned char pointers) is modelled as a
  total function from addresses (offsets from the pointer) to bytes, so
  that a read past a declared length is defined in the model exactly as
  it is observable in the program: it yields whatever byte sits there.
  Declared lengths travel separately, as in the C signatures.

  External collaborators (the OpenSSL primitives and the ldns helper
  functions that are not part of dnssec.c) are parameters, bundled in
  the structures Crypto and Ext below.
-/

namespace Dnssec

/-- A byte, the value of one unsigned char. -/
abbrev Byte := Fin 256

/-- Raw memory reachable from a C pointer: the byte at each offset. -/
abbrev Buffer := Nat → Byte

/-- Return values of the verify functions in dnssec.c: RET_SUC on
successful verification, RET_FAIL otherwise (defined in the ldns headers
outside this file's source). -/
inductive Ret where
  | RET_SUC : Ret
  | RET_FAIL : Ret
deriving DecidableEq, Repr

/-- Outcome of verify_rrsig: either the function returns an int result,
or the process is terminated by exit(EXIT_FAILURE). -/
inductive VOutcome where
  | ret : Ret → VOutcome
  | procExit : VOutcome
deriving DecidableEq, Repr

/-- One rdata field of a resource record (struct t_rdata): its raw data
bytes.  The length member of the C struct is data.length here. -/
structure Rdata where
  data : List Byte
deriving DecidableEq, Repr

/-- The empty rdata, used as the out-of-range default for rdata access. -/
def rdNil : Rdata := ⟨[]⟩

/-- A resource record (struct t_rr), reduced to the part dnssec.c reads:
its rdata fields.  For an RRSIG, rdata[1] is the algorithm, rdata[3] the
original TTL and rdata[8] the signature; for a DNSKEY, rdata[2] is the
algorithm (RFC 4034) and rdata[3] the key. -/
structure RR where
  rdata : List Rdata
deriving DecidableEq, Repr

/-- Read len bytes of memory starting at offset off. -/
def readBytes (buf : Buffer) (off len : Nat) : List Byte :=
  (List.range len).map (fun i => buf (off + i))

/-- Big-endian unsigned integer value of a byte string, as produced by
OpenSSL's BN_bin2bn on a buffer of that length. -/
def bin2bn (bs : List Byte) : Nat :=
  bs.foldl (fun a b => a * 256 + b.val) 0

/-- OpenSSL BN_bin2bn applied to len bytes of memory at offset off, with
len a C int: for a nonpositive length the conversion loop does not run
and the result is the zero bignum. -/
def BN_bin2bn (buf : Buffer) (off : Nat) (len : Int) : Nat :=
  bin2bn (readBytes buf off len.toNat)

/-- View a finite byte list as memory, with junk bytes past its end
(modelling the unspecified heap contents beyond an allocation). -/
def listToBuffer (l : List Byte) (junk : Buffer) : Buffer :=
  fun i => l.getD i (junk i)

/-- Overwrite memory with a byte list starting at offset off, as a
memcpy into a larger preallocated buffer does. -/
def writeBytes (buf : Buffer) (off : Nat) (l : List Byte) : Buffer :=
  fun i => if off ≤ i ∧ i < off + l.length then l.getD (i - off) (buf i) else buf i

/-- dnssec.c lines 100-108, 170-178 and 238-246: the mapping from the
crypto primitive's int result to the function's return value.  Result 1
maps to RET_SUC; result 0 maps to RET_FAIL; any other result (a
library-reported internal error) is logged with a warning and then also
maps to RET_FAIL. -/
def map_crypto_result (res : Int) : Ret :=
  if res = 1 then Ret.RET_SUC
  else if res = 0 then Ret.RET_FAIL
  else Ret.RET_FAIL

/-- The OpenSSL crypto primitives used by dnssec.c, as abstract
parameters.  SHA1 and MD5 take the buffer and the length passed to them;
they are modelled as total (the one-shot OpenSSL digest functions with a
static output buffer do not return NULL, so the NULL-check-and-exit
branch of the source is unreachable under this model).  dsaVerify is
DSA_do_verify receiving the digest, the digest length, the signature
pair (r, s) and the key parameters (p, q, g, pub_key).  rsaVerify is
RSA_verify receiving the digest NID, the digest, its length, the
signature buffer with its declared length, and the key (n, e). -/
structure Crypto where
  sha1 : Buffer → Nat → List Byte
  md5 : Buffer → Nat → List Byte
  dsaVerify : List Byte → Nat → Nat → Nat → Nat → Nat → Nat → Nat → Int
  rsaVerify : Nat → List Byte → Nat → Buffer → Nat → Nat → Nat → Int

/-- OpenSSL object identifier NID_md5. -/
def NID_md5 : Nat := 4

/-- OpenSSL object identifier NID_sha1. -/
def NID_sha1 : Nat := 64

/-- Modelled from the spec: the DNSSEC algorithm identifiers of the
three legacy algorithms (RFC 4034 numbers).  The constants ALG_RSAMD5,
ALG_DSA and ALG_RSASHA1 are defined in ldns headers outside src/. -/
def ALG_RSAMD5 : Nat := 1

/-- Modelled from the spec: DNSSEC algorithm number of DSA. -/
def ALG_DSA : Nat := 3

/-- Modelled from the spec: DNSSEC algorithm number of RSA/SHA-1. -/
def ALG_RSASHA1 : Nat := 5

/-- dnssec.c lines 29-111, verify_rrsig_dsa (RFC 2536).  The first key
byte is T and numberlength = 64 + T*8; T > 8 is rejected before any
parsing of the remaining bytes.  Q is the 20 bytes at offset 1, then P,
G and Y follow as consecutive numberlength-byte big-endian integers.
The first signature byte is the signature's own T and must equal the
key's T; R and S are the 20-byte integers at signature offsets 1 and 21.
The declared signature length siglen is never consulted. -/
def verify_rrsig_dsa (C : Crypto) (verifybuf : Buffer) (length : Nat)
    (sigbuf : Buffer) (siglen : Nat) (key_bytes : Buffer) (keylen : Nat) : Ret :=
  let T := key_bytes 0
  let numberlength := 64 + T.val * 8
  if T.val > 8 then Ret.RET_FAIL
  else
    let Q := bin2bn (readBytes key_bytes 1 20)
    let P := bin2bn (readBytes key_bytes 21 numberlength)
    let G := bin2bn (readBytes key_bytes (21 + numberlength) numberlength)
    let Y := bin2bn (readBytes key_bytes (21 + numberlength + numberlength) numberlength)
    let t_sig := sigbuf 0
    if t_sig ≠ T then Ret.RET_FAIL
    else
      let R := bin2bn (readBytes sigbuf 1 20)
      let S := bin2bn (readBytes sigbuf 21 20)
      let hash := C.sha1 verifybuf length
      let dsa_res := C.dsaVerify hash 20 R S P Q G Y
      map_crypto_result dsa_res

/-- dnssec.c lines 135-143 and 202-210: the RSA exponent-length header
(RFC 3110).  If the first key byte is zero, the exponent length is the
2-byte big-endian integer at bytes 1-2 (read with memcpy and ntohs) and
the exponent starts at offset 3; otherwise the first byte itself is the
exponent length and the exponent starts at offset 1.  Returns the pair
(explength, offset). -/
def rsa_exp_header (key_bytes : Buffer) : Nat × Nat :=
  if key_bytes 0 = 0 then
    ((key_bytes 1).val * 256 + (key_bytes 2).val, 3)
  else
    ((key_bytes 0).val, 1)

/-- dnssec.c lines 135-157 and 202-224: the RSA key decode block shared
verbatim by verify_rrsig_rsasha1 and verify_rrsig_rsamd5.  After the
exponent-length header, explength bytes of exponent are read at the
header offset, and the modulus is read at offset + explength with
length (int) keylen - offset, a signed C int that is negative whenever
the header claims more bytes than the key holds (the source's memcpy
size keylen-offset then wraps as unsigned arithmetic; BN_bin2bn with a
nonpositive length yields the zero bignum).  Returns the pair
(exponent, modulus). -/
def rsa_decode_key (key_bytes : Buffer) (keylen : Nat) : Nat × Nat :=
  let hdr := rsa_exp_header key_bytes
  let explength := hdr.1
  let offset := hdr.2
  let exponent := bin2bn (readBytes key_bytes offset explength)
  let offset2 := offset + explength
  let modulus := BN_bin2bn key_bytes offset2 ((keylen : Int) - (offset2 : Int))
  (exponent, modulus)

/-- dnssec.c lines 118-184, verify_rrsig_rsasha1 (RFC 3110): decode the
RSA key, digest the signed buffer with SHA1, and call RSA_verify with
NID_sha1 and digest length 20. -/
def verify_rrsig_rsasha1 (C : Crypto) (verifybuf : Buffer) (length : Nat)
    (sigbuf : Buffer) (siglen : Nat) (key_bytes : Buffer) (keylen : Nat) : Ret :=
  let dec := rsa_decode_key key_bytes keylen
  let digest := C.sha1 verifybuf length
  let rsa_res := C.rsaVerify NID_sha1 digest 20 sigbuf siglen dec.2 dec.1
  map_crypto_result rsa_res

/-- dnssec.c lines 186-253, verify_rrsig_rsamd5: decode the RSA key,
digest the signed buffer with MD5, and call RSA_verify with NID_md5 and
digest length 16. -/
def verify_rrsig_rsamd5 (C : Crypto) (verifybuf : Buffer) (length : Nat)
    (sigbuf : Buffer) (siglen : Nat) (key_bytes : Buffer) (keylen : Nat) : Ret :=
  let dec := rsa_decode_key key_bytes keylen
  let digest := C.md5 verifybuf length
  let rsa_res := C.rsaVerify NID_md5 digest 16 sigbuf siglen dec.2 dec.1
  map_crypto_result rsa_res

/-- Modelled from the spec: the external collaborator interfaces of
spec section 6 that dnssec.c calls but does not define — the base64
codec (base64_decode, returning the decoded bytes; the written-back
length is the length of that list), the RRSIG-metadata serializer
(sig2verifybytes, producing the RRSIG wire fields excluding the
signature), the RRset canonicalizer (rrset_sort, rrset_set_ttl,
rrset2wire), and the rdata integer accessors rdata2uint8 and
rdata2uint32. -/
structure Ext where
  base64_decode : List Byte → List Byte
  sig2verifybytes : RR → List Byte
  rrset_sort : RR → RR
  rrset_set_ttl : RR → Nat → RR
  rrset2wire : RR → List Byte
  rdata2uint8 : Rdata → Nat
  rdata2uint32 : Rdata → Nat

/-- dnssec.c lines 272-282: construction of the buffer to be verified.
Into the preallocated verifybuf (whose uninitialized contents are the
junk parameter), sig2verifybytes first writes the RRSIG's own wire
fields at offset 0; then the RRset is sorted, every record's TTL is set
to the RRSIG's original TTL field (rdata[3]), and rrset2wire appends
the canonical wire form of the RRset at the accumulated offset.
Returns the buffer and the accumulated length. -/
def build_verifybuf (E : Ext) (rrset rrsig : RR) (junk : Buffer) : Buffer × Nat :=
  let sigpart := E.sig2verifybytes rrsig
  let buf1 := writeBytes junk 0 sigpart
  let length1 := sigpart.length
  let rrset1 := E.rrset_sort rrset
  let int32 := E.rdata2uint32 (rrsig.rdata.getD 3 rdNil)
  let rrset2 := E.rrset_set_ttl rrset1 int32
  let wirepart := E.rrset2wire rrset2
  let buf2 := writeBytes buf1 length1 wirepart
  (buf2, length1 + wirepart.length)

/-- dnssec.c lines 259-318, verify_rrsig.  The RRSIG's signature field
(rdata[8]) is base64-decoded into sigbuf, the buffer to verify is built,
and the DNSKEY's key field (rdata[3]) is base64-decoded into key_bytes.
The guard keylen < 0 compares an unsigned value and can never hold.
The switch dispatches on the RRSIG's algorithm field (rdata[1]) alone;
an algorithm other than ALG_DSA, ALG_RSASHA1 and ALG_RSAMD5 reaches the
default branch, which terminates the process with exit(EXIT_FAILURE).
The junk parameters model the heap contents beyond the sigbuf and
key_bytes allocations and the uninitialized tail of verifybuf. -/
def verify_rrsig (E : Ext) (C : Crypto) (junkS junkK junkV : Buffer)
    (rrset rrsig dnskey : RR) : VOutcome :=
  let sigdec := E.base64_decode ((rrsig.rdata.getD 8 rdNil).data)
  let sigbuf := listToBuffer sigdec junkS
  let siglen := sigdec.length
  let bv := build_verifybuf E rrset rrsig junkV
  let verifybuf := bv.1
  let length := bv.2
  let keydec := E.base64_decode ((dnskey.rdata.getD 3 rdNil).data)
  let key_bytes := listToBuffer keydec junkK
  let keylen := keydec.length
  if keylen < 0 then VOutcome.ret Ret.RET_FAIL
  else
    let alg := E.rdata2uint8 (rrsig.rdata.getD 1 rdNil)
    if alg = ALG_DSA then
      VOutcome.ret (verify_rrsig_dsa C verifybuf length sigbuf siglen key_bytes keylen)
    else if alg = ALG_RSASHA1 then
      VOutcome.ret (verify_rrsig_rsasha1 C verifybuf length sigbuf siglen key_bytes keylen)
    else if alg = ALG_RSAMD5 then
      VOutcome.ret (verify_rrsig_rsamd5 C verifybuf length sigbuf siglen key_bytes keylen)
    else VOutcome.procExit

/-- A concrete instantiation of the collaborators, for evaluating the
embedding on closed inputs: base64_decode is the identity, the
serializers produce the empty wire form, sorting and TTL-setting leave
the record unchanged, and the integer accessors read the first data
byte of the rdata field. -/
def extId : Ext where
  base64_decode := fun l => l
  sig2verifybytes := fun _ => []
  rrset_sort := fun r => r
  rrset_set_ttl := fun r _ => r
  rrset2wire := fun _ => []
  rdata2uint8 := fun rd => (rd.data.headD 0).val
  rdata2uint32 := fun rd => (rd.data.headD 0).val

/-- A concrete crypto instantiation whose verification primitives always
report the fixed result r, with empty digests. -/
def cryptoConst (r : Int) : Crypto where
  sha1 := fun _ _ => []
  md5 := fun _ _ => []
  dsaVerify := fun _ _ _ _ _ _ _ _ => r
  rsaVerify := fun _ _ _ _ _ _ _ => r

/-- All-zero memory. -/
def buf0 : Buffer := fun _ => 0

/-- Memory holding the byte 3 everywhere; as an RSA key blob its first
byte announces a 3-byte exponent. -/
def bufK : Buffer := fun _ => 3

/-- Memory whose byte at offset 0 is 1 and zero elsewhere; as a DSA
signature blob its T value is 1. -/
def bufSig1 : Buffer := fun i => if i = 0 then 1 else 0

/-- Memory whose byte at offset 0 is 9 and zero elsewhere; as a DSA key
blob its T value is 9, beyond the supported range. -/
def bufT9 : Buffer := fun i => if i = 0 then 9 else 0

/-- Memory holding byte 1 at offset 1 and zero elsewhere; as an RSA key
blob it begins 0x00 0x01 0x00, announcing a 256-byte exponent. -/
def bufE256 : Buffer := fun i => if i = 1 then 1 else 0

/-- Memory agreeing with buf0 on offsets 0 to 40 and holding 7 beyond. -/
def bufPast40 : Buffer := fun i => if i ≤ 40 then 0 else 7

/-- A resource record with no rdata fields. -/
def rrEmpty : RR := ⟨[]⟩

/-- An RRSIG record whose algorithm field (rdata[1]) holds the single
byte a and whose other fields read by dnssec.c are empty. -/
def rrsigAlg (a : Byte) : RR := ⟨[rdNil, ⟨[a]⟩, rdNil, rdNil, rdNil, rdNil, rdNil, rdNil, rdNil]⟩

/-- A DNSKEY record whose algorithm field (rdata[2], RFC 4034) holds the
single byte a and whose key field (rdata[3]) is empty. -/
def dnskeyAlg (a : Byte) : RR := ⟨[rdNil, rdNil, ⟨[a]⟩, rdNil]⟩

/-- A DNSKEY record whose key field (rdata[3]) holds the single byte
0x03: after decoding, an RSA key blob of length 1 whose header claims a
3-byte exponent. -/
def dnskeyK3 : RR := ⟨[rdNil, rdNil, rdNil, ⟨[3]⟩]⟩

/-- The result mapping reports RET_SUC exactly on primitive result 1. -/
lemma map_crypto_result_eq_suc_iff (r : Int) :
    map_crypto_result r = Ret.RET_SUC ↔ r = 1 := by
  unfold map_crypto_result
  split
  · simp [*]
  · split <;> simp [*]

/-- Any primitive result other than 1 is mapped to RET_FAIL. -/
lemma map_crypto_result_ne_one (r : Int) (h : r ≠ 1) :
    map_crypto_result r = Ret.RET_FAIL := by
  unfold map_crypto_result
  rw [if_neg h]
  split <;> rfl

/-- Reading a region of memory only depends on the bytes of that region. -/
lemma readBytes_congr (b1 b2 : Buffer) (off len : Nat)
    (h : ∀ i, i < len → b1 (off + i) = b2 (off + i)) :
    readBytes b1 off len = readBytes b2 off len := by
  unfold readBytes
  apply List.map_congr_left
  intro i hi
  exact h i (List.mem_range.mp hi)

/-- Unfolding of verify_rrsig_dsa on the path where the key's T is in
range and the signature's T agrees with it: the result is the mapped
result of DSA_do_verify on the SHA1 digest and the decoded parameters. -/
lemma verify_rrsig_dsa_unfold (C : Crypto) (vb sb kb : Buffer) (len sl kl : Nat)
    (hT : (kb 0).val ≤ 8) (ht : sb 0 = kb 0) :
    verify_rrsig_dsa C vb len sb sl kb kl =
      map_crypto_result (C.dsaVerify (C.sha1 vb len) 20
        (bin2bn (readBytes sb 1 20)) (bin2bn (readBytes sb 21 20))
        (bin2bn (readBytes kb 21 (64 + (kb 0).val * 8)))
        (bin2bn (readBytes kb 1 20))
        (bin2bn (readBytes kb (21 + (64 + (kb 0).val * 8)) (64 + (kb 0).val * 8)))
        (bin2bn (readBytes kb (21 + (64 + (kb 0).val * 8) + (64 + (kb 0).val * 8))
          (64 + (kb 0).val * 8)))) := by
  simp only [verify_rrsig_dsa]
  rw [if_neg (by omega), if_neg (by simp [ht])]

/-- Unfolding of verify_rrsig_dsa on the early-return path where the
key's T exceeds 8: RET_FAIL, before anything else is read. -/
lemma verify_rrsig_dsa_bigT (C : Crypto) (vb sb kb : Buffer) (len sl kl : Nat)
    (hT : (kb 0).val > 8) :
    verify_rrsig_dsa C vb len sb sl kb kl = Ret.RET_FAIL := by
  simp only [verify_rrsig_dsa]
  rw [if_pos hT]

/-- Unfolding of verify_rrsig_dsa on the early-return path where the
signature's T disagrees with the key's T: RET_FAIL, without invoking the
crypto primitive. -/
lemma verify_rrsig_dsa_mismatch (C : Crypto) (vb sb kb : Buffer) (len sl kl : Nat)
    (hT : (kb 0).val ≤ 8) (ht : sb 0 ≠ kb 0) :
    verify_rrsig_dsa C vb len sb sl kb kl = Ret.RET_FAIL := by
  simp only [verify_rrsig_dsa]
  rw [if_neg (by omega), if_pos ht]

/-- C1 counterexample: called on an RRSIG whose algorithm field is 42,
an identifier other than DSA (3), RSA/SHA-1 (5) and RSA/MD5 (1),
verify_rrsig resolves the call by terminating the process
(exit(EXIT_FAILURE)) instead of returning an unsupported-algorithm
error value to the caller. -/
theorem verify_rrsig_alg42_exits_process :
    verify_rrsig extId (cryptoConst 1) buf0 buf0 buf0 rrEmpty (rrsigAlg 42) rrEmpty =
      VOutcome.procExit := by
  decide

/-- C1 amended: for every verification call whose RRSIG carries an
algorithm identifier other than DSA, RSA/SHA-1 and RSA/MD5, verify_rrsig
reaches the default branch of its dispatch switch and terminates the
process; it never returns RET_FAIL (Invalid) for this case, and it never
returns any value at all. -/
theorem verify_rrsig_unknown_alg_terminates (E : Ext) (C : Crypto)
    (jS jK jV : Buffer) (rrset rrsig dnskey : RR)
    (h1 : E.rdata2uint8 (rrsig.rdata.getD 1 rdNil) ≠ ALG_DSA)
    (h2 : E.rdata2uint8 (rrsig.rdata.getD 1 rdNil) ≠ ALG_RSASHA1)
    (h3 : E.rdata2uint8 (rrsig.rdata.getD 1 rdNil) ≠ ALG_RSAMD5) :
    verify_rrsig E C jS jK jV rrset rrsig dnskey = VOutcome.procExit := by
  simp only [verify_rrsig]
  rw [if_neg (Nat.not_lt_zero _), if_neg h1, if_neg h2, if_neg h3]

/-- C1 amended, witness at algorithm identifier 200. -/
theorem verify_rrsig_unknown_alg_terminates_witness :
    verify_rrsig extId (cryptoConst 1) buf0 buf0 buf0 rrEmpty (rrsigAlg 200) rrEmpty =
      VOutcome.procExit :=
  verify_rrsig_unknown_alg_terminates extId (cryptoConst 1) buf0 buf0 buf0
    rrEmpty (rrsigAlg 200) rrEmpty (by decide) (by decide) (by decide)

/-- C2 counterexample: on identical well-formed inputs, the DSA verifier
returns the very same value RET_FAIL when the primitive reports the
internal-error result -1 as when the primitive reports the
signature-does-not-match result 0: the Error and Invalid outcomes are
mapped to one and the same result value. -/
theorem verify_dsa_error_and_invalid_same_value :
    verify_rrsig_dsa (cryptoConst (-1)) buf0 5 buf0 41 buf0 100 = Ret.RET_FAIL ∧
    verify_rrsig_dsa (cryptoConst 0) buf0 5 buf0 41 buf0 100 = Ret.RET_FAIL := by
  decide

/-- C2 amended: every verifier returns RET_SUC exactly when its
primitive reports 1 (cryptographically valid), and any other primitive
result — 0 (invalid) and the library-error results alike — yields the
single value RET_FAIL, so a primitive-reported internal error is not
distinguishable from Invalid in the returned value. -/
theorem verifiers_map_error_like_invalid (C : Crypto)
    (vb sb kb : Buffer) (len sl kl : Nat) :
    ((verify_rrsig_rsasha1 C vb len sb sl kb kl = Ret.RET_SUC ↔
        C.rsaVerify NID_sha1 (C.sha1 vb len) 20 sb sl
          (rsa_decode_key kb kl).2 (rsa_decode_key kb kl).1 = 1) ∧
      (C.rsaVerify NID_sha1 (C.sha1 vb len) 20 sb sl
          (rsa_decode_key kb kl).2 (rsa_decode_key kb kl).1 ≠ 1 →
        verify_rrsig_rsasha1 C vb len sb sl kb kl = Ret.RET_FAIL)) ∧
    ((verify_rrsig_rsamd5 C vb len sb sl kb kl = Ret.RET_SUC ↔
        C.rsaVerify NID_md5 (C.md5 vb len) 16 sb sl
          (rsa_decode_key kb kl).2 (rsa_decode_key kb kl).1 = 1) ∧
      (C.rsaVerify NID_md5 (C.md5 vb len) 16 sb sl
          (rsa_decode_key kb kl).2 (rsa_decode_key kb kl).1 ≠ 1 →
        verify_rrsig_rsamd5 C vb len sb sl kb kl = Ret.RET_FAIL)) ∧
    ((kb 0).val ≤ 8 → sb 0 = kb 0 →
      ∃ res : Int,
        res = C.dsaVerify (C.sha1 vb len) 20
          (bin2bn (readBytes sb 1 20)) (bin2bn (readBytes sb 21 20))
          (bin2bn (readBytes kb 21 (64 + (kb 0).val * 8)))
          (bin2bn (readBytes kb 1 20))
          (bin2bn (readBytes kb (21 + (64 + (kb 0).val * 8)) (64 + (kb 0).val * 8)))
          (bin2bn (readBytes kb (21 + (64 + (kb 0).val * 8) + (64 + (kb 0).val * 8))
            (64 + (kb 0).val * 8))) ∧
        (verify_rrsig_dsa C vb len sb sl kb kl = Ret.RET_SUC ↔ res = 1) ∧
        (res ≠ 1 → verify_rrsig_dsa C vb len sb sl kb kl = Ret.RET_FAIL)) := by
  refine ⟨⟨?_, ?_⟩, ⟨?_, ?_⟩, ?_⟩
  · exact map_crypto_result_eq_suc_iff _
  · exact fun h => map_crypto_result_ne_one _ h
  · exact map_crypto_result_eq_suc_iff _
  · exact fun h => map_crypto_result_ne_one _ h
  · intro hT ht
    refine ⟨_, rfl, ?_, ?_⟩
    · rw [verify_rrsig_dsa_unfold C vb sb kb len sl kl hT ht]
      exact map_crypto_result_eq_suc_iff _
    · intro h
      rw [verify_rrsig_dsa_unfold C vb sb kb len sl kl hT ht]
      exact map_crypto_result_ne_one _ h

/-- C2 amended, witness: with a primitive that reports the result 5
(neither valid nor invalid), both RSA verifiers return RET_FAIL. -/
theorem verifiers_map_error_like_invalid_witness :
    verify_rrsig_rsasha1 (cryptoConst 5) buf0 0 buf0 0 buf0 0 = Ret.RET_FAIL ∧
    verify_rrsig_rsamd5 (cryptoConst 5) buf0 0 buf0 0 buf0 0 = Ret.RET_FAIL :=
  ⟨(verifiers_map_error_like_invalid (cryptoConst 5) buf0 buf0 buf0 0 0 0).1.2 (by decide),
   (verifiers_map_error_like_invalid (cryptoConst 5) buf0 buf0 buf0 0 0 0).2.1.2 (by decide)⟩

/-- C3 counterexample: with a DNSKEY whose algorithm field (1, RSA/MD5)
differs from the RRSIG's algorithm field (3, DSA), verify_rrsig does not
fail: it invokes the DSA verifier chosen by the RRSIG's algorithm alone
and here returns RET_SUC from the primitive. -/
theorem verify_rrsig_alg_mismatch_not_rejected :
    extId.rdata2uint8 ((dnskeyAlg 1).rdata.getD 2 rdNil) ≠
        extId.rdata2uint8 ((rrsigAlg 3).rdata.getD 1 rdNil) ∧
    verify_rrsig extId (cryptoConst 1) buf0 buf0 buf0 rrEmpty (rrsigAlg 3) (dnskeyAlg 1) =
      VOutcome.ret Ret.RET_SUC := by
  decide

/-- C3 amended: verify_rrsig never inspects the DNSKEY's algorithm
identifier; it reads only the DNSKEY's key field (rdata[3]) and
dispatches on the RRSIG's algorithm field alone, so two calls whose
DNSKEYs agree on the key field return identical results whatever their
algorithm fields. -/
theorem verify_rrsig_reads_only_dnskey_key_field (E : Ext) (C : Crypto)
    (jS jK jV : Buffer) (rrset rrsig dk1 dk2 : RR)
    (h : dk1.rdata.getD 3 rdNil = dk2.rdata.getD 3 rdNil) :
    verify_rrsig E C jS jK jV rrset rrsig dk1 =
      verify_rrsig E C jS jK jV rrset rrsig dk2 := by
  unfold verify_rrsig
  rw [h]

/-- C3 amended, witness: two DNSKEYs with algorithm fields 1 and 2 and
the same empty key field verify identically. -/
theorem verify_rrsig_reads_only_dnskey_key_field_witness :
    verify_rrsig extId (cryptoConst 1) buf0 buf0 buf0 rrEmpty (rrsigAlg 3) (dnskeyAlg 1) =
      verify_rrsig extId (cryptoConst 1) buf0 buf0 buf0 rrEmpty (rrsigAlg 3) (dnskeyAlg 2) :=
  verify_rrsig_reads_only_dnskey_key_field extId (cryptoConst 1) buf0 buf0 buf0
    rrEmpty (rrsigAlg 3) (dnskeyAlg 1) (dnskeyAlg 2) (by decide)

/-- When the region fits under the declared key length, BN_bin2bn on the
signed length difference reads exactly the remaining bytes. -/
lemma BN_bin2bn_of_le (kb : Buffer) (off kl : Nat) (h : off ≤ kl) :
    BN_bin2bn kb off ((kl : Int) - (off : Int)) = bin2bn (readBytes kb off (kl - off)) := by
  unfold BN_bin2bn
  have htn : ((kl : Int) - (off : Int)).toNat = kl - off := by omega
  rw [htn]

/-- C4: on the 1-byte key blob 0x03, whose header announces a 3-byte
exponent so that the computed modulus length is 1 - 4 = -3, the RSA
SHA-1 verifier does not fail with any decode error: the unsigned guard
keylen < 0 of verify_rrsig can never hold for any length, and the
verifier invokes RSA_verify anyway, with the zero bignum as modulus
(the signed length passed to BN_bin2bn is negative, so the conversion
loop never runs). -/
theorem rsasha1_negative_modlen_invokes_primitive (C : Crypto) (vb sb : Buffer)
    (len sl : Nat) :
    (verify_rrsig_rsasha1 C vb len sb sl bufK 1 =
      map_crypto_result (C.rsaVerify NID_sha1 (C.sha1 vb len) 20 sb sl 0
        (bin2bn (readBytes bufK 1 3)))) ∧
    ∀ keylen : Nat, ¬ keylen < 0 := by
  constructor
  · rfl
  · exact fun k => Nat.not_lt_zero k

/-- C5 counterexample: a DSA call whose signature T (1) differs from the
key T (0) returns RET_FAIL, the very same value that a matching call
returns when the primitive reports the signature invalid — there is no
distinct mismatch outcome. -/
theorem dsa_t_mismatch_same_value_as_invalid :
    verify_rrsig_dsa (cryptoConst 1) buf0 5 bufSig1 41 buf0 100 = Ret.RET_FAIL ∧
    verify_rrsig_dsa (cryptoConst 0) buf0 5 buf0 41 buf0 100 = Ret.RET_FAIL := by
  decide

/-- C5 amended: when the signature blob's first byte differs from the
key blob's first byte (with the key's T in range), the DSA verifier
returns RET_FAIL immediately and the DSA primitive is never invoked
(the result is the same for every crypto instantiation); the returned
value is the ordinary RET_FAIL, not a distinct mismatch outcome. -/
theorem dsa_t_mismatch_fails_without_primitive (C Cp : Crypto)
    (vb sb kb : Buffer) (len sl kl : Nat)
    (hT : (kb 0).val ≤ 8) (ht : sb 0 ≠ kb 0) :
    verify_rrsig_dsa C vb len sb sl kb kl = Ret.RET_FAIL ∧
    verify_rrsig_dsa C vb len sb sl kb kl = verify_rrsig_dsa Cp vb len sb sl kb kl := by
  refine ⟨verify_rrsig_dsa_mismatch C vb sb kb len sl kl hT ht, ?_⟩
  rw [verify_rrsig_dsa_mismatch C vb sb kb len sl kl hT ht,
    verify_rrsig_dsa_mismatch Cp vb sb kb len sl kl hT ht]

/-- C5 amended, witness: mismatched T values 1 (signature) and 0 (key),
under a primitive that would report valid and one that would report an
internal error. -/
theorem dsa_t_mismatch_fails_without_primitive_witness :
    verify_rrsig_dsa (cryptoConst 1) buf0 5 bufSig1 41 buf0 100 = Ret.RET_FAIL ∧
    verify_rrsig_dsa (cryptoConst 1) buf0 5 bufSig1 41 buf0 100 =
      verify_rrsig_dsa (cryptoConst (-1)) buf0 5 bufSig1 41 buf0 100 :=
  dsa_t_mismatch_fails_without_primitive (cryptoConst 1) (cryptoConst (-1))
    buf0 bufSig1 buf0 5 41 100 (by decide) (by decide)

/-- C6: the DSA decoder takes the key's first byte as T with
numberlength = 64 + T*8 (64 for T = 0 and 128 for T = 8), rejects T > 8
before invoking any primitive (the result is RET_FAIL independently of
the crypto instantiation), and otherwise consumes Q as the 20 bytes at
offset 1 and P, G, Y as the consecutive numberlength-byte big-endian
integers at offsets 21, 21 + numberlength and 21 + 2*numberlength. -/
theorem dsa_decoder_layout (C Cp : Crypto) (vb sb kb : Buffer) (len sl kl : Nat) :
    ((kb 0).val > 8 →
      verify_rrsig_dsa C vb len sb sl kb kl = Ret.RET_FAIL ∧
      verify_rrsig_dsa C vb len sb sl kb kl = verify_rrsig_dsa Cp vb len sb sl kb kl) ∧
    ((kb 0).val ≤ 8 → sb 0 = kb 0 →
      verify_rrsig_dsa C vb len sb sl kb kl =
        map_crypto_result (C.dsaVerify (C.sha1 vb len) 20
          (bin2bn (readBytes sb 1 20)) (bin2bn (readBytes sb 21 20))
          (bin2bn (readBytes kb 21 (64 + (kb 0).val * 8)))
          (bin2bn (readBytes kb 1 20))
          (bin2bn (readBytes kb (21 + (64 + (kb 0).val * 8)) (64 + (kb 0).val * 8)))
          (bin2bn (readBytes kb (21 + (64 + (kb 0).val * 8) + (64 + (kb 0).val * 8))
            (64 + (kb 0).val * 8))))) ∧
    ((kb 0).val = 0 → 64 + (kb 0).val * 8 = 64) ∧
    ((kb 0).val = 8 → 64 + (kb 0).val * 8 = 128) := by
  refine ⟨fun h => ⟨verify_rrsig_dsa_bigT C vb sb kb len sl kl h, ?_⟩,
    fun hT ht => verify_rrsig_dsa_unfold C vb sb kb len sl kl hT ht,
    fun h => by rw [h], fun h => by rw [h]⟩
  rw [verify_rrsig_dsa_bigT C vb sb kb len sl kl h,
    verify_rrsig_dsa_bigT Cp vb sb kb len sl kl h]

/-- C6, witness: a key blob with T = 0 (numberlength 64, P at offset 21,
G at 85, Y at 149) goes to the primitive, and a key blob with T = 9 is
rejected with RET_FAIL. -/
theorem dsa_decoder_layout_witness :
    (verify_rrsig_dsa (cryptoConst 1) buf0 7 buf0 41 buf0 420 =
      map_crypto_result ((cryptoConst 1).dsaVerify ((cryptoConst 1).sha1 buf0 7) 20
        (bin2bn (readBytes buf0 1 20)) (bin2bn (readBytes buf0 21 20))
        (bin2bn (readBytes buf0 21 64)) (bin2bn (readBytes buf0 1 20))
        (bin2bn (readBytes buf0 85 64)) (bin2bn (readBytes buf0 149 64)))) ∧
    verify_rrsig_dsa (cryptoConst 1) buf0 7 buf0 41 bufT9 420 = Ret.RET_FAIL :=
  ⟨(dsa_decoder_layout (cryptoConst 1) (cryptoConst 0) buf0 buf0 buf0 7 41 420).2.1
      (by decide) (by decide),
   ((dsa_decoder_layout (cryptoConst 1) (cryptoConst 0) buf0 buf0 bufT9 7 41 420).1
      (by decide)).1⟩

/-- C7: the RSA key decoder reads the exponent length from the 2-byte
big-endian field at bytes 1-2 when the first byte is zero (exponent at
offset 3) and from the first byte itself otherwise (exponent at offset
1); all bytes after the exponent form the modulus; both are big-endian
unsigned integers.  A blob beginning 0x00 0x01 0x00 yields a 256-byte
exponent and a blob beginning 0x03 a 3-byte exponent. -/
theorem rsa_decoder_layout (kb : Buffer) (kl : Nat) :
    (kb 0 = 0 →
      (rsa_decode_key kb kl).1 = bin2bn (readBytes kb 3 ((kb 1).val * 256 + (kb 2).val)) ∧
      (3 + ((kb 1).val * 256 + (kb 2).val) ≤ kl →
        (rsa_decode_key kb kl).2 =
          bin2bn (readBytes kb (3 + ((kb 1).val * 256 + (kb 2).val))
            (kl - (3 + ((kb 1).val * 256 + (kb 2).val)))))) ∧
    (kb 0 ≠ 0 →
      (rsa_decode_key kb kl).1 = bin2bn (readBytes kb 1 (kb 0).val) ∧
      (1 + (kb 0).val ≤ kl →
        (rsa_decode_key kb kl).2 =
          bin2bn (readBytes kb (1 + (kb 0).val) (kl - (1 + (kb 0).val))))) ∧
    (kb 0 = 0 → (kb 1).val = 1 → (kb 2).val = 0 →
      (rsa_decode_key kb kl).1 = bin2bn (readBytes kb 3 256)) ∧
    (kb 0 = 3 → (rsa_decode_key kb kl).1 = bin2bn (readBytes kb 1 3)) := by
  have hzero : kb 0 = 0 →
      (rsa_decode_key kb kl).1 = bin2bn (readBytes kb 3 ((kb 1).val * 256 + (kb 2).val)) ∧
      (3 + ((kb 1).val * 256 + (kb 2).val) ≤ kl →
        (rsa_decode_key kb kl).2 =
          bin2bn (readBytes kb (3 + ((kb 1).val * 256 + (kb 2).val))
            (kl - (3 + ((kb 1).val * 256 + (kb 2).val))))) := by
    intro h0
    simp only [rsa_decode_key, rsa_exp_header]
    rw [if_pos h0]
    exact ⟨rfl, fun hle => BN_bin2bn_of_le kb _ kl hle⟩
  have hnz : kb 0 ≠ 0 →
      (rsa_decode_key kb kl).1 = bin2bn (readBytes kb 1 (kb 0).val) ∧
      (1 + (kb 0).val ≤ kl →
        (rsa_decode_key kb kl).2 =
          bin2bn (readBytes kb (1 + (kb 0).val) (kl - (1 + (kb 0).val)))) := by
    intro h0
    simp only [rsa_decode_key, rsa_exp_header]
    rw [if_neg h0]
    exact ⟨rfl, fun hle => BN_bin2bn_of_le kb _ kl hle⟩
  refine ⟨hzero, hnz, fun h0 h1 h2 => ?_, fun h3 => ?_⟩
  · rw [(hzero h0).1, h1, h2]
  · have : (kb 0).val = 3 := by rw [h3]; rfl
    rw [(hnz (by rw [h3]; decide)).1, this]

/-- C7, witness: the blob beginning 0x00 0x01 0x00 yields the 256-byte
exponent at offset 3; the 1-byte-header blob beginning 0x03 yields the
3-byte exponent at offset 1 and the remaining 6 of its 10 bytes as
modulus. -/
theorem rsa_decoder_layout_witness :
    (rsa_decode_key bufE256 300).1 = bin2bn (readBytes bufE256 3 256) ∧
    (rsa_decode_key bufK 10).1 = bin2bn (readBytes bufK 1 3) ∧
    (rsa_decode_key bufK 10).2 = bin2bn (readBytes bufK 4 6) :=
  ⟨(rsa_decoder_layout bufE256 300).2.2.1 (by decide) (by decide) (by decide),
   (rsa_decoder_layout bufK 10).2.2.2 (by decide),
   ((rsa_decoder_layout bufK 10).2.1 (by decide)).2 (by decide)⟩

/-- Reading back the first a.length + b.length bytes of a buffer after
writing a at offset 0 and then b at offset a.length yields a ++ b. -/
lemma readBytes_write_two (j : Buffer) (a b : List Byte) :
    readBytes (writeBytes (writeBytes j 0 a) a.length b) 0 (a.length + b.length) = a ++ b := by
  apply List.ext_getElem
  · simp [readBytes]
  · intro i h1 h2
    have hi : i < a.length + b.length := by simpa [readBytes] using h1
    simp only [readBytes, List.getElem_map, List.getElem_range, writeBytes,
      Nat.zero_add, Nat.sub_zero, Nat.zero_le, true_and]
    by_cases hia : i < a.length
    · rw [if_neg (by omega), if_pos (by omega), List.getElem_append_left hia]
      simp [List.getD_eq_getElem?_getD, List.getElem?_eq_getElem hia]
    · rw [if_pos (by omega), List.getElem_append_right (by omega)]
      have hib : i - a.length < b.length := by omega
      simp [List.getD_eq_getElem?_getD, List.getElem?_eq_getElem hib]

/-- C8: the digest algorithm is fixed by the DNSSEC algorithm number:
the RSA/MD5 verifier hands RSA_verify the MD5 digest of the signed
buffer under the MD5 digest identifier with digest length 16; the
RSA/SHA-1 verifier the SHA1 digest under NID_sha1 with length 20; the
DSA verifier hands DSA_do_verify the SHA1 digest with length 20; and
the two digest identifiers are distinct. -/
theorem digest_pairing_fixed (C : Crypto) (vb sb kb : Buffer) (len sl kl : Nat) :
    verify_rrsig_rsamd5 C vb len sb sl kb kl =
      map_crypto_result (C.rsaVerify NID_md5 (C.md5 vb len) 16 sb sl
        (rsa_decode_key kb kl).2 (rsa_decode_key kb kl).1) ∧
    verify_rrsig_rsasha1 C vb len sb sl kb kl =
      map_crypto_result (C.rsaVerify NID_sha1 (C.sha1 vb len) 20 sb sl
        (rsa_decode_key kb kl).2 (rsa_decode_key kb kl).1) ∧
    ((kb 0).val ≤ 8 → sb 0 = kb 0 →
      ∃ R S P Q G Y, verify_rrsig_dsa C vb len sb sl kb kl =
        map_crypto_result (C.dsaVerify (C.sha1 vb len) 20 R S P Q G Y)) ∧
    NID_md5 ≠ NID_sha1 := by
  refine ⟨rfl, rfl, fun hT ht =>
    ⟨_, _, _, _, _, _, verify_rrsig_dsa_unfold C vb sb kb len sl kl hT ht⟩, by decide⟩

/-- C8, witness: the DSA path at a concrete key with T = 0 verifies the
SHA1 digest with digest length 20. -/
theorem digest_pairing_fixed_witness :
    ∃ R S P Q G Y, verify_rrsig_dsa (cryptoConst 0) buf0 9 buf0 41 buf0 99 =
      map_crypto_result ((cryptoConst 0).dsaVerify ((cryptoConst 0).sha1 buf0 9) 20
        R S P Q G Y) :=
  (digest_pairing_fixed (cryptoConst 0) buf0 buf0 buf0 9 41 99).2.2.1
    (by decide) (by decide)

/-- C9: the buffer verify_rrsig hands to the verifiers holds first the
wire serialization of the RRSIG's own fields (excluding the signature)
and then the canonical wire form of the RRset, the RRset having been
sorted and every record's TTL forced to the RRSIG's original-TTL field
(rdata[3]) before serialization; whichever verifier the RRSIG's
algorithm selects receives exactly this buffer and length. -/
theorem verifybuf_construction (E : Ext) (C : Crypto) (jS jK jV : Buffer)
    (rrset rrsig dnskey : RR) :
    readBytes (build_verifybuf E rrset rrsig jV).1 0 (build_verifybuf E rrset rrsig jV).2 =
      E.sig2verifybytes rrsig ++
        E.rrset2wire (E.rrset_set_ttl (E.rrset_sort rrset)
          (E.rdata2uint32 (rrsig.rdata.getD 3 rdNil))) ∧
    (E.rdata2uint8 (rrsig.rdata.getD 1 rdNil) = ALG_DSA →
      verify_rrsig E C jS jK jV rrset rrsig dnskey =
        VOutcome.ret (verify_rrsig_dsa C (build_verifybuf E rrset rrsig jV).1
          (build_verifybuf E rrset rrsig jV).2
          (listToBuffer (E.base64_decode ((rrsig.rdata.getD 8 rdNil).data)) jS)
          (E.base64_decode ((rrsig.rdata.getD 8 rdNil).data)).length
          (listToBuffer (E.base64_decode ((dnskey.rdata.getD 3 rdNil).data)) jK)
          (E.base64_decode ((dnskey.rdata.getD 3 rdNil).data)).length)) ∧
    (E.rdata2uint8 (rrsig.rdata.getD 1 rdNil) = ALG_RSASHA1 →
      verify_rrsig E C jS jK jV rrset rrsig dnskey =
        VOutcome.ret (verify_rrsig_rsasha1 C (build_verifybuf E rrset rrsig jV).1
          (build_verifybuf E rrset rrsig jV).2
          (listToBuffer (E.base64_decode ((rrsig.rdata.getD 8 rdNil).data)) jS)
          (E.base64_decode ((rrsig.rdata.getD 8 rdNil).data)).length
          (listToBuffer (E.base64_decode ((dnskey.rdata.getD 3 rdNil).data)) jK)
          (E.base64_decode ((dnskey.rdata.getD 3 rdNil).data)).length)) ∧
    (E.rdata2uint8 (rrsig.rdata.getD 1 rdNil) = ALG_RSAMD5 →
      verify_rrsig E C jS jK jV rrset rrsig dnskey =
        VOutcome.ret (verify_rrsig_rsamd5 C (build_verifybuf E rrset rrsig jV).1
          (build_verifybuf E rrset rrsig jV).2
          (listToBuffer (E.base64_decode ((rrsig.rdata.getD 8 rdNil).data)) jS)
          (E.base64_decode ((rrsig.rdata.getD 8 rdNil).data)).length
          (listToBuffer (E.base64_decode ((dnskey.rdata.getD 3 rdNil).data)) jK)
          (E.base64_decode ((dnskey.rdata.getD 3 rdNil).data)).length)) := by
  refine ⟨?_, fun h => ?_, fun h => ?_, fun h => ?_⟩
  · simp only [build_verifybuf]
    exact readBytes_write_two jV _ _
  · simp only [verify_rrsig]
    rw [if_neg (Nat.not_lt_zero _), if_pos h]
  · simp only [verify_rrsig]
    rw [if_neg (Nat.not_lt_zero _), if_neg (by rw [h]; decide), if_pos h]
  · simp only [verify_rrsig]
    rw [if_neg (Nat.not_lt_zero _), if_neg (by rw [h]; decide),
      if_neg (by rw [h]; decide), if_pos h]

/-- C9, witness: concrete inputs on the DSA path. -/
theorem verifybuf_construction_witness :
    readBytes (build_verifybuf extId rrEmpty (rrsigAlg 3) buf0).1 0
        (build_verifybuf extId rrEmpty (rrsigAlg 3) buf0).2 =
      extId.sig2verifybytes (rrsigAlg 3) ++
        extId.rrset2wire (extId.rrset_set_ttl (extId.rrset_sort rrEmpty)
          (extId.rdata2uint32 ((rrsigAlg 3).rdata.getD 3 rdNil))) ∧
    verify_rrsig extId (cryptoConst 1) buf0 buf0 buf0 rrEmpty (rrsigAlg 3) rrEmpty =
      VOutcome.ret (verify_rrsig_dsa (cryptoConst 1)
        (build_verifybuf extId rrEmpty (rrsigAlg 3) buf0).1
        (build_verifybuf extId rrEmpty (rrsigAlg 3) buf0).2
        (listToBuffer (extId.base64_decode (((rrsigAlg 3).rdata.getD 8 rdNil).data)) buf0)
        (extId.base64_decode (((rrsigAlg 3).rdata.getD 8 rdNil).data)).length
        (listToBuffer (extId.base64_decode ((rrEmpty.rdata.getD 3 rdNil).data)) buf0)
        (extId.base64_decode ((rrEmpty.rdata.getD 3 rdNil).data)).length) :=
  ⟨(verifybuf_construction extId (cryptoConst 1) buf0 buf0 buf0 rrEmpty
      (rrsigAlg 3) rrEmpty).1,
   (verifybuf_construction extId (cryptoConst 1) buf0 buf0 buf0 rrEmpty
      (rrsigAlg 3) rrEmpty).2.1 (by decide)⟩

/-- C10: the DSA verifier's result never depends on the declared
signature length siglen, because the signature buffer is read only at
the fixed indices 0 (the signature's T), 1-20 (R) and 21-40 (S) with no
length check: two calls identical except for the siglen argument — and
possibly in signature bytes past index 40 — return equal results. -/
theorem dsa_result_independent_of_siglen (C : Crypto) (vb sb sb2 kb : Buffer)
    (len sl sl2 kl : Nat) (h : ∀ i, i ≤ 40 → sb i = sb2 i) :
    verify_rrsig_dsa C vb len sb sl kb kl = verify_rrsig_dsa C vb len sb2 sl2 kb kl := by
  simp only [verify_rrsig_dsa]
  have h0 : sb 0 = sb2 0 := h 0 (by omega)
  have hR : readBytes sb 1 20 = readBytes sb2 1 20 :=
    readBytes_congr sb sb2 1 20 (fun i hi => h (1 + i) (by omega))
  have hS : readBytes sb 21 20 = readBytes sb2 21 20 :=
    readBytes_congr sb sb2 21 20 (fun i hi => h (21 + i) (by omega))
  rw [h0, hR, hS]

/-- C10, witness: declared lengths 41 and 0, and signature buffers that
agree up to index 40 but differ beyond, verify identically. -/
theorem dsa_result_independent_of_siglen_witness :
    verify_rrsig_dsa (cryptoConst 0) buf0 3 buf0 41 buf0 80 =
      verify_rrsig_dsa (cryptoConst 0) buf0 3 bufPast40 0 buf0 80 :=
  dsa_result_independent_of_siglen (cryptoConst 0) buf0 buf0 bufPast40 buf0 3 41 0 80
    (fun i hi => by simp [buf0, bufPast40, hi])

end Dnssec
